import Mathlib

/-!
Shallow embedding of the fit-evaluation core of the furniture-fit-checker
repository.  Screen coordinates, sizes and scales are modelled as rationals
(`ℚ`); JavaScript's numeric comparisons become the corresponding rational
comparisons.  Each definition is translated from the TypeScript source file
and function named in its doc comment.
-/

namespace FitChecker

/-- `FurnitureModel.dimensions` from `src/models/FurnitureModels.ts`
(width/height/depth in centimeters). -/
structure Dims where
  width : ℚ
  height : ℚ
  depth : ℚ
  deriving DecidableEq, Repr

/-- `FurnitureModel` from `src/models/FurnitureModels.ts`, restricted to the
fields the fit-evaluation code reads (`createGeometry` and `type` are
render-only). -/
structure FurnitureModel where
  id : String
  name : String
  dimensions : Dims
  color : String
  deriving DecidableEq, Repr

/-- The `Dining Table` preset from `furniturePresets` in
`src/models/FurnitureModels.ts`. -/
def diningTable : FurnitureModel :=
  { id := "table-1", name := "Dining Table"
    dimensions := { width := 160, height := 75, depth := 90 }
    color := "#654321" }

/-- The `3-Seater Sofa` preset from `furniturePresets` in
`src/models/FurnitureModels.ts`. -/
def sofa1 : FurnitureModel :=
  { id := "sofa-1", name := "3-Seater Sofa"
    dimensions := { width := 200, height := 85, depth := 90 }
    color := "#8B4513" }

/-- The axis-aligned rectangle separation/overlap test shared verbatim by every
`checkCollision` in the repository:
`!(furnitureRight < zoneX || furnitureLeft > zoneRight || furnitureBottom < zoneY || furnitureTop > zoneBottom)`
where the zone extends from `(zx, zy)` to `(zx + zw, zy + zh)`. -/
def overlapsB (fL fR fT fB zx zy zw zh : ℚ) : Bool :=
  !(decide (fR < zx) || decide (fL > zx + zw) ||
    decide (fB < zy) || decide (fT > zy + zh))

/-- Obstacle zone record of `SmartARViewer` (`obstacleZones` entries):
plain rectangles with no label or confidence. -/
structure Zone where
  x : ℚ
  y : ℚ
  width : ℚ
  height : ℚ
  deriving DecidableEq, Repr

/-- `checkCollision` of `SmartARViewer` (unnamed source file, lines 33–55):
iterates the obstacle zones and returns `true` on the first zone whose
rectangle overlaps the furniture's centered bounding rectangle. -/
def smartCheckCollision (fx fy fw fh : ℚ) : List Zone → Bool
  | [] => false
  | z :: rest =>
    if overlapsB (fx - fw / 2) (fx + fw / 2) (fy - fh / 2) (fy + fh / 2)
        z.x z.y z.width z.height then
      true
    else
      smartCheckCollision fx fy fw fh rest

/-- `checkFit` of `SmartARViewer` (unnamed source file, lines 57–82):
vacuously `true` with no furniture; otherwise no collision ∧ within screen
bounds ∧ reasonable size. -/
def smartCheckFit (selected : Option FurnitureModel) (fx fy scale sw sh : ℚ)
    (zones : List Zone) : Bool :=
  match selected with
  | none => true
  | some f =>
    let fw := f.dimensions.width * scale
    let fh := f.dimensions.height * scale
    let hasCollision := smartCheckCollision fx fy fw fh zones
    let withinBounds :=
      decide (fx > fw / 2) && decide (fx < sw - fw / 2) &&
      decide (fy > fh / 2) && decide (fy < sh - fh / 2)
    let reasonableSize := decide (fw < sw * (6 / 10)) && decide (fh < sh * (4 / 10))
    !hasCollision && withinBounds && reasonableSize

/-- Region classification of `RealTimeARViewer`'s `DetectedRegion`
(`type: 'obstacle' | 'clear'`). -/
inductive RegionType where
  | obstacle
  | clear
  deriving DecidableEq, Repr

/-- `DetectedRegion` from `src/components/RealTimeARViewer.tsx` (lines 13–20). -/
structure DetectedRegion where
  x : ℚ
  y : ℚ
  width : ℚ
  height : ℚ
  type : RegionType
  confidence : ℚ
  deriving DecidableEq, Repr

/-- Result record of `RealTimeARViewer.checkCollision`
(`{ collision, confidence }`). -/
structure RtCollision where
  collision : Bool
  confidence : ℚ
  deriving DecidableEq, Repr

/-- Loop body of `checkCollision` in `src/components/RealTimeARViewer.tsx`
(lines 167–189), with the furniture edges already computed: skips `clear`
regions, and returns the first region that overlaps AND has
`confidence > 0.5`. -/
def rtCollideLoop (fL fR fT fB : ℚ) : List DetectedRegion → RtCollision
  | [] => { collision := false, confidence := 0 }
  | r :: rest =>
    if r.type = RegionType.clear then
      rtCollideLoop fL fR fT fB rest
    else if overlapsB fL fR fT fB r.x r.y r.width r.height
        && decide (r.confidence > 1 / 2) then
      { collision := true, confidence := r.confidence }
    else
      rtCollideLoop fL fR fT fB rest

/-- `checkCollision` of `src/components/RealTimeARViewer.tsx` (lines 167–189):
computes the centered bounding rectangle of the furniture and runs the region
loop. -/
def rtCheckCollision (fx fy fw fh : ℚ) (regions : List DetectedRegion) :
    RtCollision :=
  rtCollideLoop (fx - fw / 2) (fx + fw / 2) (fy - fh / 2) (fy + fh / 2) regions

/-- `FitResult` shape of `RealTimeARViewer.checkFit` (`{ fits, reason }`). -/
structure RtFitResult where
  fits : Bool
  reason : String
  deriving DecidableEq, Repr

/-- JavaScript `Math.round`: round half up, `Math.round(x) = ⌊x + 0.5⌋`. -/
def jsRound (q : ℚ) : ℤ := ⌊q + 1 / 2⌋

/-- `checkFit` of `src/components/RealTimeARViewer.tsx` (lines 191–224):
vacuous fit with no furniture; else blocked on collision; else reports a
clear-zone or generic clear verdict. -/
def rtCheckFit (selected : Option FurnitureModel) (fx fy scale : ℚ)
    (regions : List DetectedRegion) : RtFitResult :=
  match selected with
  | none => { fits := true, reason := "" }
  | some f =>
    let fw := f.dimensions.width * scale
    let fh := f.dimensions.height * scale
    let c := rtCheckCollision fx fy fw fh regions
    if c.collision then
      { fits := false
        reason := "Obstacle detected (" ++ toString (jsRound (c.confidence * 100))
          ++ "% confidence)" }
    else
      let inClearZone := regions.any fun r =>
        if r.type ≠ RegionType.clear then false
        else
          decide (fx ≥ r.x) && decide (fx ≤ r.x + r.width) &&
          decide (fy ≥ r.y) && decide (fy ≤ r.y + r.height)
      if inClearZone then
        { fits := true, reason := "Clear floor space detected" }
      else
        { fits := true, reason := "Space appears clear" }

/-- `DetectedObject` of `src/components/CloudVisionARViewer.tsx` (lines 12–21):
a labelled bounding box with a confidence. -/
structure DetectedObject where
  label : String
  confidence : ℚ
  x : ℚ
  y : ℚ
  width : ℚ
  height : ℚ
  deriving DecidableEq, Repr

/-- Result record of `CloudVisionARViewer.checkCollision`
(`{ collision, object, confidence }`; `object` is a label string or `null`). -/
structure CvCollision where
  collision : Bool
  object : Option String
  confidence : ℚ
  deriving DecidableEq, Repr

/-- First loop of `checkCollision` in `src/components/CloudVisionARViewer.tsx`
(lines 169–185): skips objects labelled `floor` and returns the first
remaining object whose box overlaps the furniture rectangle.  There is no
confidence test in this loop. -/
def cvCollideLoop (fL fR fT fB : ℚ) : List DetectedObject → Option DetectedObject
  | [] => none
  | o :: rest =>
    if o.label = "floor" then
      cvCollideLoop fL fR fT fB rest
    else if overlapsB fL fR fT fB o.x o.y o.width o.height then
      some o
    else
      cvCollideLoop fL fR fT fB rest

/-- `checkCollision` of `src/components/CloudVisionARViewer.tsx`
(lines 163–197): first overlapping non-floor object wins; otherwise, if the
furniture's center y lies within a detected `floor` box, report the safe floor
zone; otherwise no collision. -/
def cvCheckCollision (fx fy fw fh : ℚ) (objs : List DetectedObject) :
    CvCollision :=
  let fL := fx - fw / 2
  let fR := fx + fw / 2
  let fT := fy - fh / 2
  let fB := fy + fh / 2
  match cvCollideLoop fL fR fT fB objs with
  | some o => { collision := true, object := some o.label, confidence := o.confidence }
  | none =>
    match objs.find? (fun o => o.label == "floor") with
    | some fl =>
      if decide (fy ≥ fl.y) && decide (fy ≤ fl.y + fl.height) then
        { collision := false, object := some "floor", confidence := 1 }
      else
        { collision := false, object := none, confidence := 0 }
    | none => { collision := false, object := none, confidence := 0 }

/-- `FitResult` shape of `CloudVisionARViewer.checkFit`
(`{ fits, reason, detail }`). -/
structure CvFitResult where
  fits : Bool
  reason : String
  detail : String
  deriving DecidableEq, Repr

/-- `checkFit` of `src/components/CloudVisionARViewer.tsx` (lines 199–233). -/
def cvCheckFit (selected : Option FurnitureModel) (fx fy scale : ℚ)
    (objs : List DetectedObject) : CvFitResult :=
  match selected with
  | none => { fits := true, reason := "", detail := "" }
  | some f =>
    let fw := f.dimensions.width * scale
    let fh := f.dimensions.height * scale
    let c := cvCheckCollision fx fy fw fh objs
    if c.collision then
      { fits := false
        reason := "Blocked by " ++ c.object.getD "null"
        detail := "(" ++ toString (jsRound (c.confidence * 100)) ++ "% confidence)" }
    else if c.object = some "floor" then
      { fits := true, reason := "Clear floor space", detail := "Safe to place here" }
    else
      { fits := true, reason := "Space appears clear", detail := "No obstacles detected" }

/-- Detected-object record of `AIARViewer` in
`src/components/FurnitureSelector.tsx` (`{class: string, bbox: number[]}` with
`bbox = [x, y, width, height]`). -/
structure AiObject where
  cls : String
  x : ℚ
  y : ℚ
  width : ℚ
  height : ℚ
  deriving DecidableEq, Repr

/-- Result record of `AIARViewer.checkCollision`
(`{ collision, objectType }`). -/
structure AiCollision where
  collision : Bool
  objectType : Option String
  deriving DecidableEq, Repr

/-- `checkCollision` of `AIARViewer` in `src/components/FurnitureSelector.tsx`
(lines 700–722): returns the first overlapping detected object; no label
filtering and no confidence test. -/
def aiCollideLoop (fL fR fT fB : ℚ) : List AiObject → AiCollision
  | [] => { collision := false, objectType := none }
  | o :: rest =>
    if overlapsB fL fR fT fB o.x o.y o.width o.height then
      { collision := true, objectType := some o.cls }
    else
      aiCollideLoop fL fR fT fB rest

/-- `checkCollision` of `AIARViewer`, with the centered furniture rectangle
computed from center and size as in lines 700–703. -/
def aiCheckCollision (fx fy fw fh : ℚ) (objs : List AiObject) : AiCollision :=
  aiCollideLoop (fx - fw / 2) (fx + fw / 2) (fy - fh / 2) (fy + fh / 2) objs

/-- `checkFit` of `AIARViewer` in `src/components/FurnitureSelector.tsx`
(lines 724–754): vacuous fit with no furniture; collision verdict is returned
before the screen-bounds verdict. -/
def aiCheckFit (selected : Option FurnitureModel) (fx fy scale sw sh : ℚ)
    (objs : List AiObject) : RtFitResult :=
  match selected with
  | none => { fits := true, reason := "" }
  | some f =>
    let fw := f.dimensions.width * scale
    let fh := f.dimensions.height * scale
    let c := aiCheckCollision fx fy fw fh objs
    let withinBounds :=
      decide (fx > fw / 2) && decide (fx < sw - fw / 2) &&
      decide (fy > fh / 2) && decide (fy < sh - fh / 2)
    if c.collision then
      { fits := false, reason := "Blocked by " ++ c.objectType.getD "null" }
    else if !withinBounds then
      { fits := false, reason := "Out of bounds" }
    else
      { fits := true, reason := "Clear space detected" }

/-- Room dimensions `{ width, height, depth }` in centimeters, as passed to
`SimpleARViewer`, `CameraARViewer` and the 3-D `checkFit`. -/
structure RoomDims where
  width : ℚ
  height : ℚ
  depth : ℚ
  deriving DecidableEq, Repr

/-- `checkFit` of `SimpleARViewer` (`src/components/ARViewer.tsx`,
lines 257–264) and, with an identical body, of `CameraARViewer`
(`src/components/FurnitureSelector.tsx`, lines 328–335):
`scaledWidth <= roomDimensions.width && scaledDepth <= roomDimensions.depth`.
The component state also holds `furniturePosition`, which this function does
not read; it is passed here explicitly to state position-independence. -/
def roomCheckFit (selected : Option FurnitureModel) (scale : ℚ)
    (furniturePosition : ℚ × ℚ) (room : RoomDims) : Bool :=
  match selected with
  | none => true
  | some f =>
    let _ := furniturePosition
    decide (f.dimensions.width * scale ≤ room.width) &&
    decide (f.dimensions.depth * scale ≤ room.depth)

/-- `adjustScale` of `SmartARViewer` (unnamed source file, lines 111–116), of
`RealTimeARViewer` (lines 251–256), of `CloudVisionARViewer` (lines 251–256)
and of `AIARViewer` (lines 772–777), all with identical bodies:
`newScale = increase ? prev * 1.2 : prev * 0.8` clamped by
`Math.max(0.1, Math.min(1.5, newScale))`. -/
def smartAdjustScale (increase : Bool) (prev : ℚ) : ℚ :=
  max (1 / 10) (min (3 / 2) (if increase then prev * (12 / 10) else prev * (8 / 10)))

/-- `adjustScale` of `SimpleARViewer` (`src/components/ARViewer.tsx`,
lines 281–286) and of `CameraARViewer` (lines 352–357):
`newScale = increase ? prev * 1.1 : prev * 0.9` clamped by
`Math.max(0.1, Math.min(3, newScale))`. -/
def simpleAdjustScale (increase : Bool) (prev : ℚ) : ℚ :=
  max (1 / 10) (min 3 (if increase then prev * (11 / 10) else prev * (9 / 10)))

/-- The scaled-size computation the viewers perform inline, e.g.
`furnitureWidth = selectedFurniture.dimensions.width * furnitureScale` and
`furnitureHeight = selectedFurniture.dimensions.height * furnitureScale`
(`CloudVisionARViewer.tsx` lines 202–203 and its siblings).  It is a bare
multiplication: the source has no validation of the scale factor. -/
def scaledSize (d : Dims) (scale : ℚ) : ℚ × ℚ :=
  (d.width * scale, d.height * scale)

/-- The error taxonomy the specification prescribes for non-positive scale
factors.  No such error exists anywhere in the repository. -/
inductive ScaleErr where
  | invalidScale
  deriving DecidableEq, Repr

/-- The scaled-size computation of the source viewed as a fallible operation:
the source code has no failure path whatsoever (no check of `scale`, no
exception), so the embedding always returns `Except.ok` of the bare
multiplication. -/
def scaledSizeE (d : Dims) (scale : ℚ) : Except ScaleErr (ℚ × ℚ) :=
  Except.ok (scaledSize d scale)

/-- Modelled from the spec: `scaledSize(dimensions, scale)` as section 4.1
describes it, failing with `InvalidScale` when `scale <= 0`.  This definition
follows the specification's words; no function in the repository implements
it. -/
def scaledSizeSpec (d : Dims) (scale : ℚ) : Except ScaleErr (ℚ × ℚ) :=
  if scale ≤ 0 then Except.error ScaleErr.invalidScale
  else Except.ok (d.width * scale, d.height * scale)

/-- Placement state shared by the camera viewers: the furniture overlay's
center position (`furniturePosition`) and scale (`furnitureScale`).
(`SmartARViewer` additionally keeps a render-only `isPlaced` flag, which
`resetPlacement` clears; it carries no geometric information.) -/
structure PlaceState where
  pos : ℚ × ℚ
  scale : ℚ
  deriving DecidableEq, Repr

/-- The placement mutations of a camera viewer: an absolute drag move
(`onPanResponderMove` sets `{x: gestureState.moveX, y: gestureState.moveY}`),
a scale adjustment, or `resetPlacement`. -/
inductive PlaceOp where
  | move (x y : ℚ)
  | adjScale (increase : Bool)
  | reset
  deriving DecidableEq, Repr

/-- Per-mode placement policy: the scale-adjust function, the reset position
as a function of the screen size, and the reset scale. -/
structure ArMode where
  adjust : Bool → ℚ → ℚ
  resetPos : ℚ → ℚ → ℚ × ℚ
  resetScale : ℚ

/-- Initial `furnitureScale` of `SmartARViewer` (`useState(0.3)`). -/
def smartInitScale : ℚ := 3 / 10

/-- Initial `furnitureScale` of `RealTimeARViewer` and `CloudVisionARViewer`
(`useState(0.4)`). -/
def rtInitScale : ℚ := 4 / 10

/-- `SmartARViewer` placement policy: `resetPlacement` (unnamed source file,
lines 118–122) sets position `{x: screenWidth / 2, y: screenHeight * 0.7}` and
scale `0.3`. -/
def smartMode : ArMode :=
  { adjust := smartAdjustScale
    resetPos := fun sw sh => (sw / 2, sh * (7 / 10))
    resetScale := smartInitScale }

/-- `RealTimeARViewer` placement policy: `resetPlacement` (lines 258–261) sets
position `{x: screenWidth / 2, y: screenHeight * 0.7}` and scale `0.4`. -/
def rtMode : ArMode :=
  { adjust := smartAdjustScale
    resetPos := fun sw sh => (sw / 2, sh * (7 / 10))
    resetScale := rtInitScale }

/-- `CloudVisionARViewer` placement policy: `resetPlacement` (lines 258–261)
sets position `{x: screenWidth / 2, y: screenHeight * 0.75}` and scale
`0.4`. -/
def cvMode : ArMode :=
  { adjust := smartAdjustScale
    resetPos := fun sw sh => (sw / 2, sh * (3 / 4))
    resetScale := rtInitScale }

/-- One placement mutation applied to the state, per mode and screen size. -/
def stepOp (m : ArMode) (sw sh : ℚ) : PlaceOp → PlaceState → PlaceState
  | PlaceOp.move x y, s => { pos := (x, y), scale := s.scale }
  | PlaceOp.adjScale inc, s => { pos := s.pos, scale := m.adjust inc s.scale }
  | PlaceOp.reset, _ => { pos := m.resetPos sw sh, scale := m.resetScale }

/-- A finite sequence of placement mutations applied in order. -/
def runOps (m : ArMode) (sw sh : ℚ) (ops : List PlaceOp) (s : PlaceState) :
    PlaceState :=
  ops.foldl (fun st op => stepOp m sw sh op st) s

/-- JavaScript `parseFloat(s) || default`: the parse result of the entered
string is taken as `Option ℚ` (`none` when the string does not parse as a
number, i.e. `parseFloat` returns `NaN`); `||` also replaces a parsed `0`
(falsy) by the default. -/
def jsParseOr (parsed : Option ℚ) (d : ℚ) : ℚ :=
  match parsed with
  | none => d
  | some v => if v = 0 then d else v

/-- `createCustomFurniture` of `src/components/FurnitureSelector.tsx`
(lines 43–63), dimension construction: each entered string goes through
`parseFloat(text) || 100` — the fallback constant is `100` for width, height
AND depth.  Inputs are the `parseFloat` results of the three entered
strings. -/
def createCustomFurniture (wp hp dp : Option ℚ) : FurnitureModel :=
  { id := "custom-1"
    name := "Custom Furniture"
    dimensions :=
      { width := jsParseOr wp 100
        height := jsParseOr hp 100
        depth := jsParseOr dp 100 }
    color := "#4B0082" }

/-- A 3-D position `{x, y, z}` (a `THREE.Vector3` in the source). -/
structure Vec3 where
  x : ℚ
  y : ℚ
  z : ℚ
  deriving DecidableEq, Repr

/-- Room bounds record returned by `getRoomBounds`. -/
structure RoomBounds where
  minX : ℚ
  maxX : ℚ
  minY : ℚ
  maxY : ℚ
  minZ : ℚ
  maxZ : ℚ
  deriving DecidableEq, Repr

/-- `getRoomBounds` of `src/models/FurnitureModels.ts` (lines 79–88). -/
def getRoomBounds (room : RoomDims) : RoomBounds :=
  { minX := -room.width / 200
    maxX := room.width / 200
    minY := 0
    maxY := room.height / 100
    minZ := -room.depth / 200
    maxZ := room.depth / 200 }

/-- `checkFit` of `src/models/FurnitureModels.ts` (lines 90–109): 3-D bounds
test with half-extents `dimensions / 200` against `getRoomBounds`; the
vertical test is `position.y >= minY && position.y + halfHeight <= maxY`. -/
def checkFit3D (f : FurnitureModel) (position : Vec3) (room : RoomDims) :
    Bool :=
  let bounds := getRoomBounds room
  let halfWidth := f.dimensions.width / 200
  let halfHeight := f.dimensions.height / 200
  let halfDepth := f.dimensions.depth / 200
  decide (position.x - halfWidth ≥ bounds.minX) &&
  decide (position.x + halfWidth ≤ bounds.maxX) &&
  decide (position.y ≥ bounds.minY) &&
  decide (position.y + halfHeight ≤ bounds.maxY) &&
  decide (position.z - halfDepth ≥ bounds.minZ) &&
  decide (position.z + halfDepth ≤ bounds.maxZ)

/-! ### Shared lemmas -/

/-- A region with confidence at most `0.5` is skipped by the RealTime
collision loop wherever it sits in the region list. -/
lemma rtCollideLoop_skip (fL fR fT fB : ℚ) (l₁ l₂ : List DetectedRegion)
    (r : DetectedRegion) (hc : r.confidence ≤ 1 / 2) :
    rtCollideLoop fL fR fT fB (l₁ ++ r :: l₂) =
      rtCollideLoop fL fR fT fB (l₁ ++ l₂) := by
  induction l₁ with
  | nil =>
    have hconf : decide (r.confidence > 1 / 2) = false := by
      simp only [decide_eq_false_iff_not, not_lt]
      exact hc
    show rtCollideLoop fL fR fT fB (r :: l₂) = rtCollideLoop fL fR fT fB l₂
    by_cases ht : r.type = RegionType.clear
    · rw [rtCollideLoop, if_pos ht]
    · rw [rtCollideLoop, if_neg ht, if_neg]
      simp only [Bool.and_eq_true, decide_eq_true_eq, not_and, not_lt]
      intro _
      exact hc
  | cons a t ih =>
    simp only [List.cons_append, rtCollideLoop]
    split_ifs <;> simp [ih]

/-- The lower clamp bound of the Smart/RealTime/CloudVision/AI
`adjustScale`. -/
lemma smartAdjustScale_lb (i : Bool) (s : ℚ) : 1 / 10 ≤ smartAdjustScale i s :=
  le_max_left _ _

/-- The upper clamp bound of the Smart/RealTime/CloudVision/AI
`adjustScale`. -/
lemma smartAdjustScale_ub (i : Bool) (s : ℚ) : smartAdjustScale i s ≤ 3 / 2 :=
  max_le (by norm_num) (min_le_left _ _)

/-- The lower clamp bound of the Simple/Camera `adjustScale`. -/
lemma simpleAdjustScale_lb (i : Bool) (s : ℚ) : 1 / 10 ≤ simpleAdjustScale i s :=
  le_max_left _ _

/-- The upper clamp bound of the Simple/Camera `adjustScale`. -/
lemma simpleAdjustScale_ub (i : Bool) (s : ℚ) : simpleAdjustScale i s ≤ 3 :=
  max_le (by norm_num) (min_le_left _ _)

/-- Any fold of a clamped adjust function over a list of button presses stays
within the clamp range, provided the start does. -/
lemma foldl_adjust_mem (adjust : Bool → ℚ → ℚ) (lb ub : ℚ)
    (hadj : ∀ i s, lb ≤ adjust i s ∧ adjust i s ≤ ub) :
    ∀ (ops : List Bool) (s : ℚ), lb ≤ s → s ≤ ub →
      lb ≤ ops.foldl (fun a i => adjust i a) s ∧
      ops.foldl (fun a i => adjust i a) s ≤ ub := by
  intro ops
  induction ops with
  | nil => intro s h1 h2; exact ⟨h1, h2⟩
  | cons i t ih =>
    intro s h1 h2
    simpa using ih (adjust i s) (hadj i s).1 (hadj i s).2

/-- `0.1` is a fixed point of the decrease branch of `adjustScale`:
`max 0.1 (min 1.5 (0.1 * 0.8)) = 0.1`. -/
lemma smart_decrease_fix : smartAdjustScale false (1 / 10) = 1 / 10 := by
  norm_num [smartAdjustScale, min_def, max_def]

/-- One computed step of repeated decreases, used to evaluate the iterate. -/
lemma smart_iter_step (n : ℕ) (x y : ℚ)
    (hx : smartAdjustScale false x = y)
    (h : (fun q => smartAdjustScale false q)^[n] y = 1 / 10) :
    (fun q => smartAdjustScale false q)^[n + 1] x = 1 / 10 := by
  rw [Function.iterate_succ_apply]
  simpa [hx] using h

/-- Starting from scale `1`, eleven decrease presses saturate at `0.1`. -/
lemma smart_decrease_11 :
    (fun q => smartAdjustScale false q)^[11] (1 : ℚ) = 1 / 10 := by
  refine smart_iter_step 10 1 (8 / 10) ?_ ?_
  · norm_num [smartAdjustScale, min_def, max_def]
  refine smart_iter_step 9 _ (16 / 25) (by norm_num [smartAdjustScale, min_def, max_def]) ?_
  refine smart_iter_step 8 _ (64 / 125) (by norm_num [smartAdjustScale, min_def, max_def]) ?_
  refine smart_iter_step 7 _ (256 / 625) (by norm_num [smartAdjustScale, min_def, max_def]) ?_
  refine smart_iter_step 6 _ (1024 / 3125) (by norm_num [smartAdjustScale, min_def, max_def]) ?_
  refine smart_iter_step 5 _ (4096 / 15625) (by norm_num [smartAdjustScale, min_def, max_def]) ?_
  refine smart_iter_step 4 _ (16384 / 78125) (by norm_num [smartAdjustScale, min_def, max_def]) ?_
  refine smart_iter_step 3 _ (65536 / 390625) (by norm_num [smartAdjustScale, min_def, max_def]) ?_
  refine smart_iter_step 2 _ (262144 / 1953125) (by norm_num [smartAdjustScale, min_def, max_def]) ?_
  refine smart_iter_step 1 _ (1048576 / 9765625) (by norm_num [smartAdjustScale, min_def, max_def]) ?_
  refine smart_iter_step 0 _ (1 / 10) (by norm_num [smartAdjustScale, min_def, max_def]) rfl

/-! ### Theorems -/

/-- C6: for every placement, scale, screen size and set of detected
zones/regions/objects, when no furniture item is selected each fit evaluator
returns `fits = true` with an empty reason (and the SmartARViewer boolean
evaluator returns `true`), skipping all collision, bounds and size checks. -/
theorem no_item_vacuous_fit :
    ∀ (fx fy scale sw sh : ℚ) (zones : List Zone)
      (regions : List DetectedRegion) (objs : List DetectedObject)
      (dets : List AiObject),
      rtCheckFit none fx fy scale regions = { fits := true, reason := "" } ∧
      cvCheckFit none fx fy scale objs = { fits := true, reason := "", detail := "" } ∧
      aiCheckFit none fx fy scale sw sh dets = { fits := true, reason := "" } ∧
      smartCheckFit none fx fy scale sw sh zones = true := by
  intros
  exact ⟨rfl, rfl, rfl, rfl⟩

/-- C4: the room-dimension check is `true` iff scaled width `≤` room width and
scaled depth `≤` room depth (inclusive), it is independent of the furniture
position, and at the boundary the 200×90 footprint (the 3-Seater Sofa preset)
at scale 1 fits a 200×90 room but not a 199×90 room. -/
theorem room_check_characterization :
    ∀ (f : FurnitureModel) (scale : ℚ) (p₁ p₂ : ℚ × ℚ) (room : RoomDims),
      roomCheckFit (some f) scale p₁ room = roomCheckFit (some f) scale p₂ room ∧
      (roomCheckFit (some f) scale p₁ room = true ↔
        f.dimensions.width * scale ≤ room.width ∧
        f.dimensions.depth * scale ≤ room.depth) ∧
      roomCheckFit (some sofa1) 1 (0, 0) { width := 200, height := 100, depth := 90 } = true ∧
      roomCheckFit (some sofa1) 1 (0, 0) { width := 199, height := 100, depth := 90 } = false := by
  intro f scale p₁ p₂ room
  refine ⟨rfl, ?_, by norm_num [roomCheckFit, sofa1], by norm_num [roomCheckFit, sofa1]⟩
  simp [roomCheckFit]

/-- C10: in the 3-D room check at floor level (position `(0, 0, 0)`), the
verdict is `true` iff width `≤` room width, depth `≤` room depth, and height
`≤` twice the room height — because the vertical test compares
`y + height/200` against `roomHeight/100` while the floor constraint is
`y ≥ 0`. -/
theorem checkFit3D_at_floor :
    ∀ (f : FurnitureModel) (room : RoomDims),
      checkFit3D f { x := 0, y := 0, z := 0 } room = true ↔
        f.dimensions.width ≤ room.width ∧
        f.dimensions.depth ≤ room.depth ∧
        f.dimensions.height ≤ 2 * room.height := by
  intro f room
  simp only [checkFit3D, getRoomBounds, Bool.and_eq_true, decide_eq_true_iff]
  constructor
  · rintro ⟨⟨⟨⟨⟨h1, h2⟩, h3⟩, h4⟩, h5⟩, h6⟩
    refine ⟨by linarith, by linarith, by linarith⟩
  · rintro ⟨h1, h2, h3⟩
    refine ⟨⟨⟨⟨⟨by linarith, by linarith⟩, by linarith⟩, by linarith⟩, by linarith⟩,
      by linarith⟩

/-- C9: `resetPlacement` run after any finite sequence of move/drag, scale and
reset operations yields the mode's single fixed default state; reset is
idempotent and history-independent; for the Smart and RealTime modes the
default is `(screenWidth/2, 0.7·screenHeight)` (`0.75` for CloudVision) with
the mode's initial `furnitureScale`. -/
theorem reset_history_independent :
    ∀ (m : ArMode) (sw sh : ℚ) (ops : List PlaceOp) (s s' : PlaceState),
      runOps m sw sh (ops ++ [PlaceOp.reset]) s =
        { pos := m.resetPos sw sh, scale := m.resetScale } ∧
      stepOp m sw sh PlaceOp.reset (stepOp m sw sh PlaceOp.reset s) =
        stepOp m sw sh PlaceOp.reset s' ∧
      stepOp smartMode sw sh PlaceOp.reset s =
        { pos := (sw / 2, sh * (7 / 10)), scale := smartInitScale } ∧
      stepOp rtMode sw sh PlaceOp.reset s =
        { pos := (sw / 2, sh * (7 / 10)), scale := rtInitScale } ∧
      stepOp cvMode sw sh PlaceOp.reset s =
        { pos := (sw / 2, sh * (3 / 4)), scale := rtInitScale } := by
  intro m sw sh ops s s'
  refine ⟨?_, rfl, rfl, rfl, rfl⟩
  simp [runOps, List.foldl_append, stepOp]

/-- C1: in the CloudVision and AI fit evaluators, whenever the collision query
on the item's centered bounding rectangle reports a collision, the evaluator
returns `fits = false` with reason `"Blocked by <label>"` (with the confidence
annotation in the CloudVision variant), for every screen size — i.e. regardless
of the outcome of any subsequent bounds check: the collision check
dominates. -/
theorem collision_dominates :
    ∀ (f : FurnitureModel) (fx fy scale sw sh : ℚ)
      (objs : List DetectedObject) (dets : List AiObject),
      ((cvCheckCollision fx fy (f.dimensions.width * scale)
          (f.dimensions.height * scale) objs).collision = true →
        cvCheckFit (some f) fx fy scale objs =
          { fits := false
            reason := "Blocked by " ++
              ((cvCheckCollision fx fy (f.dimensions.width * scale)
                (f.dimensions.height * scale) objs).object.getD "null")
            detail := "(" ++ toString (jsRound
              ((cvCheckCollision fx fy (f.dimensions.width * scale)
                (f.dimensions.height * scale) objs).confidence * 100)) ++
              "% confidence)" }) ∧
      ((aiCheckCollision fx fy (f.dimensions.width * scale)
          (f.dimensions.height * scale) dets).collision = true →
        aiCheckFit (some f) fx fy scale sw sh dets =
          { fits := false
            reason := "Blocked by " ++
              ((aiCheckCollision fx fy (f.dimensions.width * scale)
                (f.dimensions.height * scale) dets).objectType.getD "null") }) := by
  intro f fx fy scale sw sh objs dets
  constructor
  · intro h
    simp only [cvCheckFit]
    rw [if_pos h]
  · intro h
    simp only [aiCheckFit]
    rw [if_pos h]

/-- C1 witness: a 90%-confidence person box covering the Dining Table overlay
yields `fits = false`, `reason = "Blocked by person"` in both variants, even
though the placement is well inside the 800×600 screen bounds. -/
theorem collision_dominates_witness :
    cvCheckFit (some diningTable) 100 100 1
        [{ label := "person", confidence := 9 / 10, x := 50, y := 50,
           width := 100, height := 100 }] =
      { fits := false, reason := "Blocked by person", detail := "(90% confidence)" } ∧
    aiCheckFit (some diningTable) 100 100 1 800 600
        [{ cls := "person", x := 50, y := 50, width := 100, height := 100 }] =
      { fits := false, reason := "Blocked by person" } := by
  have hcv : cvCheckCollision 100 100 (diningTable.dimensions.width * 1)
      (diningTable.dimensions.height * 1)
      [{ label := "person", confidence := 9 / 10, x := 50, y := 50,
         width := 100, height := 100 }] =
      { collision := true, object := some "person", confidence := 9 / 10 } := by
    simp only [cvCheckCollision, cvCollideLoop, overlapsB, diningTable]
    norm_num
    simp
  have hai : aiCheckCollision 100 100 (diningTable.dimensions.width * 1)
      (diningTable.dimensions.height * 1)
      [{ cls := "person", x := 50, y := 50, width := 100, height := 100 }] =
      { collision := true, objectType := some "person" } := by
    simp only [aiCheckCollision, aiCollideLoop, overlapsB, diningTable]
    norm_num
  have h := collision_dominates diningTable 100 100 1 800 600
    [{ label := "person", confidence := 9 / 10, x := 50, y := 50,
       width := 100, height := 100 }]
    [{ cls := "person", x := 50, y := 50, width := 100, height := 100 }]
  constructor
  · have h2 := h.1 (by rw [hcv])
    rw [hcv] at h2
    rw [h2]
    norm_num [jsRound]
    exact ⟨rfl, rfl⟩
  · have h2 := h.2 (by rw [hai])
    rw [hai] at h2
    rw [h2]
    rfl

/-- C2 counterexample: the furniture rectangle `[0,20]×[0,20]` (center
`(10,10)`, size `20×20`) and the obstacle zone `[20,30]×[0,20]` share exactly
the edge `x = 20` and do not otherwise intersect, yet `checkCollision` reports
a collision — the separation test uses strict inequalities, so touching edges
count as overlapping; likewise a degenerate zero-width rectangle (center
`(25,10)`, width `0`) overlaps the zone. -/
theorem touch_overlap_cex :
    smartCheckCollision 10 10 20 20
        [{ x := 20, y := 0, width := 10, height := 20 }] = true ∧
    smartCheckCollision 25 10 0 20
        [{ x := 20, y := 0, width := 10, height := 20 }] = true := by
  constructor <;> norm_num [smartCheckCollision, overlapsB]

/-- C2 amended: rectangles sharing an edge DO report an overlap: whenever the
furniture's right edge coincides with a zone's left edge and the remaining
closed extents meet, the collision test returns `true` (closed-interval
semantics; degenerate zero-size rectangles therefore also overlap whatever
their closed extent meets). -/
theorem touching_edges_overlap :
    ∀ (fx fy fw fh : ℚ) (z : Zone),
      fx + fw / 2 = z.x →
      fx - fw / 2 ≤ z.x + z.width →
      z.y ≤ fy + fh / 2 →
      fy - fh / 2 ≤ z.y + z.height →
      smartCheckCollision fx fy fw fh [z] = true := by
  intro fx fy fw fh z h1 h2 h3 h4
  have hov : overlapsB (fx - fw / 2) (fx + fw / 2) (fy - fh / 2) (fy + fh / 2)
      z.x z.y z.width z.height = true := by
    simp only [overlapsB, Bool.not_eq_true', Bool.or_eq_false_iff,
      decide_eq_false_iff_not, not_lt]
    exact ⟨⟨⟨le_of_eq h1.symm, h2⟩, h3⟩, h4⟩
  rw [smartCheckCollision, if_pos hov]

/-- C2 amended witness: the shared-edge configuration of the counterexample
satisfies the hypotheses and reports a collision. -/
theorem touching_edges_overlap_witness :
    smartCheckCollision 10 10 20 20
        [{ x := 20, y := 0, width := 10, height := 20 }] = true := by
  exact touching_edges_overlap 10 10 20 20
    { x := 20, y := 0, width := 10, height := 20 }
    (by norm_num) (by norm_num) (by norm_num) (by norm_num)

/-- C3 counterexample: a `person` detection with confidence `0.4` overlapping
the Dining Table overlay makes the CloudVision evaluator report
`fits = false`, while with the region absent it reports `fits = true` — the
CloudVision collision query applies no confidence floor, so the claim fails on
this variant. -/
theorem conf_floor_cex :
    (cvCheckFit (some diningTable) 10 10 (1 / 10)
        [{ label := "person", confidence := 2 / 5, x := 0, y := 0,
           width := 30, height := 30 }]).fits = false ∧
    (cvCheckFit (some diningTable) 10 10 (1 / 10) []).fits = true := by
  constructor
  · simp only [cvCheckFit, cvCheckCollision, cvCollideLoop, overlapsB, diningTable]
    norm_num
    simp
  · simp [cvCheckFit, cvCheckCollision, cvCollideLoop]

/-- C3 amended: only the RealTime evaluator applies the `0.5` confidence
floor: an obstacle region with confidence at most `0.5`, wherever it sits in
the region list, is ignored by its collision query and leaves the fit verdict
exactly as if the region were absent (the CloudVision collision query has no
confidence threshold, as the counterexample shows). -/
theorem rt_conf_floor :
    ∀ (f : FurnitureModel) (fx fy fw fh scale : ℚ)
      (l₁ l₂ : List DetectedRegion) (r : DetectedRegion),
      r.confidence ≤ 1 / 2 → r.type = RegionType.obstacle →
      rtCheckCollision fx fy fw fh (l₁ ++ r :: l₂) =
        rtCheckCollision fx fy fw fh (l₁ ++ l₂) ∧
      rtCheckFit (some f) fx fy scale (l₁ ++ r :: l₂) =
        rtCheckFit (some f) fx fy scale (l₁ ++ l₂) := by
  intro f fx fy fw fh scale l₁ l₂ r hc ht
  constructor
  · simp only [rtCheckCollision]
    exact rtCollideLoop_skip _ _ _ _ l₁ l₂ r hc
  · simp only [rtCheckFit, rtCheckCollision]
    rw [rtCollideLoop_skip _ _ _ _ l₁ l₂ r hc]
    simp [ht]

/-- C3 amended witness: a `0.4`-confidence obstacle region covering the
overlay is ignored by the RealTime evaluator: the collision query and the fit
verdict equal the ones computed with no regions at all. -/
theorem rt_conf_floor_witness :
    rtCheckCollision 10 10 16 (15 / 2)
        [{ x := 0, y := 0, width := 30, height := 30,
           type := RegionType.obstacle, confidence := 2 / 5 }] =
      rtCheckCollision 10 10 16 (15 / 2) [] ∧
    rtCheckFit (some diningTable) 10 10 (1 / 10)
        [{ x := 0, y := 0, width := 30, height := 30,
           type := RegionType.obstacle, confidence := 2 / 5 }] =
      rtCheckFit (some diningTable) 10 10 (1 / 10) [] := by
  have h := rt_conf_floor diningTable 10 10 16 (15 / 2) (1 / 10) [] []
    { x := 0, y := 0, width := 30, height := 30,
      type := RegionType.obstacle, confidence := 2 / 5 }
    (by norm_num) rfl
  simpa using h

/-- C5: for any starting scale inside the mode's range and any finite sequence
of `adjustScale` presses, the resulting scale lies in the mode's `[min, max]`
range (`[0.1, 1.5]` for the `×1.2 / ×0.8` modes, `[0.1, 3]` for the
`×1.1 / ×0.9` modes); clamping is saturating: starting at `1.0`, eleven or
more decrease presses (factor `0.8`) yield exactly the minimum `0.1`, never a
value below it. -/
theorem adjustScale_clamped :
    (∀ (ops : List Bool) (s : ℚ), 1 / 10 ≤ s → s ≤ 3 / 2 →
      1 / 10 ≤ ops.foldl (fun a i => smartAdjustScale i a) s ∧
      ops.foldl (fun a i => smartAdjustScale i a) s ≤ 3 / 2) ∧
    (∀ (ops : List Bool) (s : ℚ), 1 / 10 ≤ s → s ≤ 3 →
      1 / 10 ≤ ops.foldl (fun a i => simpleAdjustScale i a) s ∧
      ops.foldl (fun a i => simpleAdjustScale i a) s ≤ 3) ∧
    (∀ n : ℕ, 11 ≤ n → (fun q => smartAdjustScale false q)^[n] (1 : ℚ) = 1 / 10) := by
  refine ⟨?_, ?_, ?_⟩
  · exact foldl_adjust_mem smartAdjustScale (1 / 10) (3 / 2)
      (fun i s => ⟨smartAdjustScale_lb i s, smartAdjustScale_ub i s⟩)
  · exact foldl_adjust_mem simpleAdjustScale (1 / 10) 3
      (fun i s => ⟨simpleAdjustScale_lb i s, simpleAdjustScale_ub i s⟩)
  · intro n hn
    obtain ⟨m, rfl⟩ := Nat.exists_eq_add_of_le hn
    rw [add_comm, Function.iterate_add_apply, smart_decrease_11]
    exact Function.iterate_fixed smart_decrease_fix m

/-- C5 witness: one decrease press from scale `1` stays in `[0.1, 1.5]`
(resp. `[0.1, 3]` for the Simple mode), and the specification's example of 50
decrease presses from scale `1` yields exactly `0.1`. -/
theorem adjustScale_clamped_witness :
    (1 / 10 ≤ [false].foldl (fun a i => smartAdjustScale i a) 1 ∧
      [false].foldl (fun a i => smartAdjustScale i a) 1 ≤ 3 / 2) ∧
    (1 / 10 ≤ [false].foldl (fun a i => simpleAdjustScale i a) 1 ∧
      [false].foldl (fun a i => simpleAdjustScale i a) 1 ≤ 3) ∧
    (fun q => smartAdjustScale false q)^[50] (1 : ℚ) = 1 / 10 := by
  exact ⟨adjustScale_clamped.1 [false] 1 (by norm_num) (by norm_num),
    adjustScale_clamped.2.1 [false] 1 (by norm_num) (by norm_num),
    adjustScale_clamped.2.2 50 (by norm_num)⟩

/-- C7 counterexample: at scale factor `0` (which is `≤ 0`), the scaled-size
computation of the source succeeds with the silently multiplied value
`(0, 0)` — it does not fail with an `InvalidScale` error as the claim
requires. -/
theorem scaled_size_cex :
    scaledSizeE { width := 100, height := 100, depth := 50 } 0 =
      Except.ok ((0 : ℚ), (0 : ℚ)) ∧
    scaledSizeE { width := 100, height := 100, depth := 50 } 0 ≠
      Except.error ScaleErr.invalidScale := by
  constructor
  · show Except.ok (scaledSize { width := 100, height := 100, depth := 50 } 0) = _
    norm_num [scaledSize]
  · simp [scaledSizeE]

/-- C7 amended: a non-positive scale factor is never rejected or signalled:
the repository has no `InvalidScale` error and no `scaledSize` function — the
viewers scale by bare multiplication, which at `scale ≤ 0` silently returns a
non-positive width (diverging from the specification's `scaledSizeSpec`,
which errors there); and `adjustScale` takes a boolean direction with
hardcoded positive factors and always returns a clamped positive scale, so a
non-positive factor can never even reach the placement state. -/
theorem scaled_size_no_signal :
    ∀ (d : Dims) (s : ℚ), s ≤ 0 → 0 < d.width →
      scaledSizeE d s = Except.ok (scaledSize d s) ∧
      (scaledSize d s).1 ≤ 0 ∧
      scaledSizeSpec d s = Except.error ScaleErr.invalidScale ∧
      (∀ (increase : Bool) (prev : ℚ), 0 < smartAdjustScale increase prev) := by
  intro d s hs hw
  refine ⟨rfl, ?_, ?_, ?_⟩
  · exact mul_nonpos_iff.mpr (Or.inl ⟨le_of_lt hw, hs⟩)
  · simp [scaledSizeSpec, hs]
  · intro increase prev
    exact lt_of_lt_of_le (by norm_num) (smartAdjustScale_lb increase prev)

/-- C7 amended witness: at dimensions `100×100×50` and scale `-1`, the code's
scaled-size computation returns `ok (-100, -100)` (a non-positive width, no
error), the spec's version errors, and `adjustScale` of `0.5` stays
positive. -/
theorem scaled_size_no_signal_witness :
    scaledSizeE { width := 100, height := 100, depth := 50 } (-1) =
      Except.ok (scaledSize { width := 100, height := 100, depth := 50 } (-1)) ∧
    (scaledSize { width := 100, height := 100, depth := 50 } (-1)).1 ≤ 0 ∧
    scaledSizeSpec { width := 100, height := 100, depth := 50 } (-1) =
      Except.error ScaleErr.invalidScale ∧
    (∀ (increase : Bool) (prev : ℚ), 0 < smartAdjustScale increase prev) := by
  exact scaled_size_no_signal { width := 100, height := 100, depth := 50 } (-1)
    (by norm_num) (by norm_num)

/-- C8 counterexample: with parseable width and height strings and a depth
string that does not parse (`parseFloat` returns `NaN`), the custom item's
depth falls back to `100`, not to the claimed `50`. -/
theorem custom_depth_cex :
    (createCustomFurniture (some 120) (some 80) none).dimensions.depth = 100 ∧
    (createCustomFurniture (some 120) (some 80) none).dimensions.depth ≠ 50 := by
  constructor
  · rfl
  · norm_num [createCustomFurniture, jsParseOr]

/-- C8 amended: a user-entered dimension string that does not parse as a
number falls back to `100` for width, `100` for height and `100` for depth
(the fallback constant in `parseFloat(text) || 100` is `100` for all three
fields; only the form's initial text values are `100`/`100`/`50`). -/
theorem custom_fallback_100 :
    ∀ (p q : Option ℚ),
      (createCustomFurniture none p q).dimensions.width = 100 ∧
      (createCustomFurniture p none q).dimensions.height = 100 ∧
      (createCustomFurniture p q none).dimensions.depth = 100 := by
  intro p q
  exact ⟨rfl, rfl, rfl⟩

end FitChecker
